import Mathlib

/-!
Shallow embedding of `src/Backend/src/controllers/users/ngo.controller.js`
(NGO account / facility management controllers of the lifelink backend).

Request handlers are modelled as pure functions from the request data and
the current persistence state to a result: an `Except` of the thrown error
or the success response envelope, together with the new persistence state
and a count of outbound notification dispatches.  External collaborators
(token generation, the notification service) enter as explicit parameters.
-/

/-- The `ApiError` envelope thrown by handlers: an HTTP status code and a
message. -/
structure ApiError where
  statusCode : Nat
  message : String
deriving Repr, DecidableEq

/-- The `ApiResponse` success envelope: status code, data payload, message. -/
structure ApiResponse (α : Type) where
  statusCode : Nat
  data : α
  message : String
deriving Repr, DecidableEq

/-- An error escaping a handler: either a thrown `ApiError`, a JavaScript
`ReferenceError` (use of an unbound identifier), or a rejection coming from
an external collaborator such as the notification service. -/
inductive HandlerError where
  | api (e : ApiError)
  | referenceError (ident : String)
  | dispatchFailure (msg : String)
deriving Repr, DecidableEq

instance {ε α : Type} [DecidableEq ε] [DecidableEq α] : DecidableEq (Except ε α)
  | .ok a, .ok b =>
    if h : a = b then .isTrue (by rw [h]) else .isFalse (fun hh => by cases hh; exact h rfl)
  | .ok _, .error _ => .isFalse (fun hh => by cases hh)
  | .error _, .ok _ => .isFalse (fun hh => by cases hh)
  | .error e, .error f =>
    if h : e = f then .isTrue (by rw [h]) else .isFalse (fun hh => by cases hh; exact h rfl)

/-- `true` exactly when the handler produced a success envelope rather than
throwing. -/
def isSuccess {α : Type} : Except HandlerError (ApiResponse α) → Bool
  | .ok _ => true
  | .error _ => false

/-- The HTTP status carried by the outcome: the success envelope's code, or
the thrown `ApiError`'s code; `none` for non-`ApiError` failures. -/
def responseStatus {α : Type} : Except HandlerError (ApiResponse α) → Option Nat
  | .ok r => some r.statusCode
  | .error (.api e) => some e.statusCode
  | .error _ => none

/-- `NGO_STATUS` constant object (ngo.controller.js, lines 18–23). -/
def NGO_STATUS.PENDING : String := "PENDING"

def NGO_STATUS.ACTIVE : String := "ACTIVE"

def NGO_STATUS.SUSPENDED : String := "SUSPENDED"

def NGO_STATUS.BLACKLISTED : String := "BLACKLISTED"

/-- `FACILITY_OPERATIONS` constant object (ngo.controller.js, lines 25–32). -/
def FACILITY_OPERATIONS.CREATE : String := "create"

def FACILITY_OPERATIONS.UPDATE : String := "update"

def FACILITY_OPERATIONS.DELETE : String := "delete"

def FACILITY_OPERATIONS.SUSPEND : String := "suspend"

def FACILITY_OPERATIONS.ACTIVATE : String := "activate"

def FACILITY_OPERATIONS.LIST : String := "LIST"

/-- Modelled from the spec: the `FACILITY_TYPE` enum imported from
`facility.models.js`, a file not present under `src/`; the spec's data model
gives the facility type values `CAMP` and `CENTER`. -/
def FACILITY_TYPE.CAMP : String := "CAMP"

/-- Modelled from the spec: see `FACILITY_TYPE.CAMP`. -/
def FACILITY_TYPE.CENTER : String := "CENTER"

/-- The authenticated NGO identity attached to the request (`req.ngo`):
its document id and its status field. -/
structure NgoCtx where
  id : Nat
  status : String
deriving Repr, DecidableEq

/-- A GeoJSON point as built by the create branch:
`{ type: "Point", coordinates: [longitude, latitude] }`. -/
structure GeoLocation where
  type : String
  coordinates : Int × Int
deriving Repr, DecidableEq

/-- A stored facility document: id, owning NGO id, and the fields the
controller reads or writes (name from the request body spread, the derived
`facilityType` and `status`, the location point). -/
structure Facility where
  id : Nat
  ngoId : Nat
  name : Option String
  facilityType : String
  status : String
  location : GeoLocation
deriving Repr, DecidableEq

/-- The JSON body of a facility-management request (`req.body`): the
client-supplied `type` selector, any client-supplied `facilityType` /
`status` / `name` fields, and the longitude/latitude pair. `none` models an
absent field. -/
structure FacilityBody where
  type : Option String
  facilityType : Option String
  status : Option String
  name : Option String
  longitude : Int
  latitude : Int
deriving Repr, DecidableEq

/-- Payload of a facility-management success response: a single facility
document (create/update/delete/suspend/activate) or a list (LIST). -/
inductive FacilityResData where
  | one (facility : Facility)
  | many (facilities : List Facility)
deriving Repr, DecidableEq

/-- Outcome of `manageFacility`: the response or thrown error, the facility
collection after the call, and how many bulk-notification dispatches were
performed. -/
structure FacilityResult where
  response : Except HandlerError (ApiResponse FacilityResData)
  facilities : List Facility
  bulkDispatches : Nat
deriving Repr, DecidableEq

/-- `notifyNearbyDonors` (lines 378–403): queries donors within 10 km that
are active and opted in, then performs one `sendBulkNotifications` call.
The geo query and the dispatch run against external collaborators; `ok`
models whether those external calls resolve.  On success it returns the
number of bulk dispatches performed (exactly one). -/
def notifyNearbyDonors (ok : Bool) (facility : Facility) : Except HandlerError Nat :=
  if ok then .ok 1 else .error (.dispatchFailure "notification dispatch failed")

/-- `Object.assign(facility, req.body)` in the update branch (line 297):
body fields that are facility schema paths overwrite the document's fields
when present. -/
def applyBodyUpdate (facility : Facility) (body : FacilityBody) : Facility :=
  { facility with
    name := match body.name with
      | some n => some n
      | none => facility.name
    facilityType := body.facilityType.getD facility.facilityType
    status := body.status.getD facility.status }

/-- The document built by `Facility.create` in the create branch (lines
251–263): the body spread, the owning NGO id, the derived `facilityType`
and `status` (written after the spread, so they override any client-supplied
values), and the location point. -/
def createdFacility (ngo : NgoCtx) (body : FacilityBody) (freshId : Nat) : Facility :=
  { id := freshId
    ngoId := ngo.id
    name := body.name
    facilityType :=
      if body.type = some "CAMP" then FACILITY_TYPE.CAMP
      else FACILITY_TYPE.CENTER
    status := if body.type = some "CAMP" then "PLANNED" else "INACTIVE"
    location := { type := "Point", coordinates := (body.longitude, body.latitude) } }

/-- `manageFacility` (lines 242–318). Parameters: the authenticated NGO
context, the `action` route parameter, the `facilityId` route parameter,
the request body, the stored facility collection, the id the store assigns
to a newly created document, and whether the donor-notification side effect
resolves. -/
def manageFacility (ngo : NgoCtx) (action : String) (facilityId : Nat)
    (body : FacilityBody) (db : List Facility) (freshId : Nat)
    (notifyOk : Bool) : FacilityResult :=
  if ngo.status ≠ NGO_STATUS.ACTIVE then
    ⟨.error (.api ⟨403, "NGO must be active to manage facilities"⟩), db, 0⟩
  else if action = FACILITY_OPERATIONS.CREATE then
    let facility : Facility := createdFacility ngo body freshId
    let db1 := db ++ [facility]
    if facility.facilityType = FACILITY_TYPE.CAMP then
      match notifyNearbyDonors notifyOk facility with
      | .ok n => ⟨.ok ⟨201, .one facility, "Facility created successfully"⟩, db1, n⟩
      | .error e => ⟨.error e, db1, 0⟩
    else
      ⟨.ok ⟨201, .one facility, "Facility created successfully"⟩, db1, 0⟩
  else if action = FACILITY_OPERATIONS.LIST then
    ⟨.ok ⟨200, .many (db.filter fun f => f.ngoId == ngo.id),
        "Facilities fetched successfully"⟩, db, 0⟩
  else
    match db.find? fun f => f.id == facilityId && f.ngoId == ngo.id with
    | none => ⟨.error (.api ⟨404, "Facility not found"⟩), db, 0⟩
    | some facility =>
      if action = FACILITY_OPERATIONS.UPDATE then
        let updated := applyBodyUpdate facility body
        ⟨.ok ⟨200, .one updated, "Facility " ++ action ++ "d successfully"⟩,
          db.map (fun f => if f.id == facility.id then updated else f), 0⟩
      else if action = FACILITY_OPERATIONS.DELETE then
        ⟨.ok ⟨200, .one facility, "Facility " ++ action ++ "d successfully"⟩,
          db.filter (fun f => f.id != facility.id), 0⟩
      else if action = FACILITY_OPERATIONS.SUSPEND ∨ action = FACILITY_OPERATIONS.ACTIVATE then
        let updated : Facility :=
          { facility with
            status := if action = FACILITY_OPERATIONS.SUSPEND then "SUSPENDED" else "ACTIVE" }
        ⟨.ok ⟨200, .one updated, "Facility " ++ action ++ "d successfully"⟩,
          db.map (fun f => if f.id == facility.id then updated else f), 0⟩
      else
        ⟨.error (.api ⟨400, "Invalid operation"⟩), db, 0⟩

/-- The `contactPerson` object of a registration body. -/
structure ContactPerson where
  name : Option String
  phone : Option String
deriving Repr, DecidableEq

/-- A stored NGO account document, with the fields this controller reads or
writes.  The password field holds what the create call received (hashing
happens in the external model layer and is out of scope). -/
structure NgoRecord where
  id : Nat
  name : String
  email : String
  password : String
  contactPerson : ContactPerson
  regNumber : String
  verificationStatus : String
  refreshToken : Option String
  lastLogin : Option Nat
deriving Repr, DecidableEq

/-- The JSON body of a registration request; `none` models an absent field. -/
structure RegisterBody where
  name : Option String
  email : Option String
  password : Option String
  contactPerson : Option ContactPerson
  regNumber : Option String
deriving Repr, DecidableEq

/-- JS truthiness test `!s` for an optional string: absent and `""` are
falsy. -/
def strFalsy : Option String → Bool
  | none => true
  | some s => s == ""

/-- JS truthiness test `!s?.trim()`: absent, or trimming to `""` (the string
consists solely of whitespace), is falsy. -/
def trimFalsy : Option String → Bool
  | none => true
  | some s => s.data.all fun c => c.isWhitespace

/-- The redacted registration response payload (lines 127–140): only id,
name, email and verification status are returned. -/
structure RegisterData where
  id : Nat
  name : String
  email : String
  status : String
deriving Repr, DecidableEq

/-- Outcome of `registerNGO`: the response or thrown error and the NGO
collection after the call. -/
structure RegisterResult where
  response : Except HandlerError (ApiResponse RegisterData)
  ngos : List NgoRecord
deriving Repr, DecidableEq

/-- `registerNGO` (lines 47–141): field validation, duplicate check over
email / registration number, creation with verification status `PENDING`,
redacted summary response.  Document upload and the audit write touch only
external collaborators and do not affect the modelled state. -/
def registerNGO (body : RegisterBody) (db : List NgoRecord) (freshId : Nat) :
    RegisterResult :=
  if trimFalsy body.name then
    ⟨.error (.api ⟨400, "NGO name is required"⟩), db⟩
  else if trimFalsy body.email then
    ⟨.error (.api ⟨400, "Email is required"⟩), db⟩
  else if trimFalsy body.password ∨ (body.password.getD "").length < 8 then
    ⟨.error (.api ⟨400, "Password must be at least 8 characters"⟩), db⟩
  else if strFalsy (body.contactPerson.bind fun c => c.name)
      ∨ strFalsy (body.contactPerson.bind fun c => c.phone) then
    ⟨.error (.api ⟨400, "Contact person details required"⟩), db⟩
  else if trimFalsy body.regNumber then
    ⟨.error (.api ⟨400, "Registration number required"⟩), db⟩
  else
    match db.find? fun n =>
        n.email == body.email.getD "" || n.regNumber == body.regNumber.getD "" with
    | some existingNGO =>
      ⟨.error (.api ⟨409,
          if existingNGO.email == body.email.getD "" then "Email already registered"
          else "Registration number already exists"⟩), db⟩
    | none =>
      let ngo : NgoRecord :=
        { id := freshId
          name := body.name.getD ""
          email := body.email.getD ""
          password := body.password.getD ""
          contactPerson := body.contactPerson.getD ⟨none, none⟩
          regNumber := body.regNumber.getD ""
          verificationStatus := "PENDING"
          refreshToken := none
          lastLogin := none }
      ⟨.ok ⟨201, ⟨ngo.id, ngo.name, ngo.email, ngo.verificationStatus⟩,
          "NGO registration submitted for verification"⟩, db ++ [ngo]⟩

/-- Modelled from the spec: the NGO model's `comparePassword` method
(`ngo.models.js`, not present under `src/`) — "verifies password via the
account's own comparison rule".  In this embedding the stored password field
holds what registration received, so the comparison rule accepts exactly
that value. -/
def comparePassword (ngo : NgoRecord) (password : String) : Bool :=
  ngo.password == password

/-- `generateTokens` (lines 35–44): refetches the NGO by id, stores the
freshly generated refresh token and the login time, and returns the token
pair.  Token generation itself is external (`generateAccessToken` /
`generateRefreshToken` on the model); the generated strings and the clock
are parameters. -/
def generateTokens (ngoId : Nat) (accessToken refreshToken : String) (now : Nat)
    (db : List NgoRecord) : (String × String) × List NgoRecord :=
  ((accessToken, refreshToken),
    db.map fun n =>
      if n.id == ngoId then { n with refreshToken := some refreshToken, lastLogin := some now }
      else n)

/-- The login response payload (line 159): the NGO document variable held by
the handler, spread together with the token pair. -/
structure LoginData where
  ngo : NgoRecord
  accessToken : String
  refreshToken : String
deriving Repr, DecidableEq

/-- Outcome of `loginNGO`: the response or thrown error and the NGO
collection after the call. -/
structure LoginResult where
  response : Except HandlerError (ApiResponse LoginData)
  ngos : List NgoRecord
deriving Repr, DecidableEq

/-- `loginNGO` (lines 144–160): presence check, lookup by email, password
comparison, token generation (which persists the new refresh token on a
refetched document instance), then a response built from the document as
loaded at the start of the handler. -/
def loginNGO (email password : Option String) (db : List NgoRecord)
    (accessToken refreshToken : String) (now : Nat) : LoginResult :=
  if strFalsy email ∨ strFalsy password then
    ⟨.error (.api ⟨400, "Email and password are required"⟩), db⟩
  else
    match db.find? fun n => n.email == email.getD "" with
    | none => ⟨.error (.api ⟨404, "NGO not found"⟩), db⟩
    | some ngo =>
      if comparePassword ngo (password.getD "") then
        let tokens := generateTokens ngo.id accessToken refreshToken now db
        ⟨.ok ⟨200, ⟨ngo, tokens.1.1, tokens.1.2⟩, "Login successful"⟩, tokens.2⟩
      else
        ⟨.error (.api ⟨401, "Invalid credentials"⟩), db⟩

/-- Outcome of `resendVerificationOtp`: the response or thrown error, the
NGO collection after the call, and how many notification dispatches were
performed. -/
structure OtpResult where
  response : Except HandlerError (ApiResponse Unit)
  ngos : List NgoRecord
  notificationsSent : Nat
deriving Repr, DecidableEq

/-- `resendVerificationOtp` (lines 406–423): lookup, the `PENDING`-status
gate, then the OTP step.  The identifier `generateOtp` called at line 416 is
neither defined nor imported anywhere in the module (the imports at lines
1–15 and every declaration were checked), so in JavaScript the call raises a
`ReferenceError` before any assignment to `verificationOtp`, any save, or
any notification dispatch. -/
def resendVerificationOtp (ngoId : Nat) (db : List NgoRecord) : OtpResult :=
  match db.find? fun n => n.id == ngoId with
  | none => ⟨.error (.api ⟨404, "NGO not found"⟩), db, 0⟩
  | some ngo =>
    if ngo.verificationStatus ≠ NGO_STATUS.PENDING then
      ⟨.error (.api ⟨400, "Verification already completed or not pending"⟩), db, 0⟩
    else
      ⟨.error (.referenceError "generateOtp"), db, 0⟩

/-- C1: for a facility-create request by an authenticated ACTIVE NGO, the
stored facility has `facilityType` CAMP and status PLANNED when the
client-supplied `type` equals `"CAMP"`, and `facilityType` CENTER and status
INACTIVE for any other (or absent) type; the derived values depend only on
`body.type`, so they override any client-supplied `facilityType`/`status`
fields. -/
theorem C1_create_derived_type_and_status (ngo : NgoCtx) (facilityId : Nat)
    (body : FacilityBody) (db : List Facility) (freshId : Nat) (notifyOk : Bool)
    (hact : ngo.status = NGO_STATUS.ACTIVE) :
    (manageFacility ngo FACILITY_OPERATIONS.CREATE facilityId body db freshId notifyOk).facilities
      = db ++ [{ id := freshId, ngoId := ngo.id, name := body.name,
                 facilityType := if body.type = some "CAMP" then FACILITY_TYPE.CAMP
                   else FACILITY_TYPE.CENTER,
                 status := if body.type = some "CAMP" then "PLANNED" else "INACTIVE",
                 location := { type := "Point",
                               coordinates := (body.longitude, body.latitude) } }] := by
  by_cases h : body.type = some "CAMP" <;> cases notifyOk <;>
    simp [manageFacility, createdFacility, hact, notifyNearbyDonors, h,
      FACILITY_OPERATIONS.CREATE, FACILITY_TYPE.CAMP, FACILITY_TYPE.CENTER]

/-- Witness for C1: a concrete CAMP creation where the client also supplied
`facilityType = "CENTER"` and `status = "SUSPENDED"`; the stored record has
the derived CAMP/PLANNED values. -/
theorem C1_create_derived_type_and_status_witness :
    (manageFacility ⟨1, "ACTIVE"⟩ FACILITY_OPERATIONS.CREATE 0
        ⟨some "CAMP", some "CENTER", some "SUSPENDED", some "Camp A", 3, 4⟩ [] 7 true).facilities
      = [⟨7, 1, some "Camp A", "CAMP", "PLANNED", ⟨"Point", (3, 4)⟩⟩] := by
  have h := C1_create_derived_type_and_status ⟨1, "ACTIVE"⟩ 0
    ⟨some "CAMP", some "CENTER", some "SUSPENDED", some "Camp A", 3, 4⟩ [] 7 true rfl
  simpa using h

/-- C3: a facility-create request by an NGO whose status is not ACTIVE is
rejected with a 403 forbidden-state error; the facility collection is
unchanged and no notification is dispatched. -/
theorem C3_inactive_ngo_create_rejected (ngo : NgoCtx) (facilityId : Nat)
    (body : FacilityBody) (db : List Facility) (freshId : Nat) (notifyOk : Bool)
    (hact : ngo.status ≠ NGO_STATUS.ACTIVE) :
    manageFacility ngo FACILITY_OPERATIONS.CREATE facilityId body db freshId notifyOk
      = ⟨.error (.api ⟨403, "NGO must be active to manage facilities"⟩), db, 0⟩ := by
  simp [manageFacility, hact]

/-- Witness for C3: a PENDING NGO attempting a CAMP creation is rejected and
nothing is stored. -/
theorem C3_inactive_ngo_create_rejected_witness :
    manageFacility ⟨1, "PENDING"⟩ FACILITY_OPERATIONS.CREATE 0
        ⟨some "CAMP", none, none, none, 0, 0⟩ [] 7 true
      = ⟨.error (.api ⟨403, "NGO must be active to manage facilities"⟩), [], 0⟩ :=
  C3_inactive_ngo_create_rejected ⟨1, "PENDING"⟩ 0
    ⟨some "CAMP", none, none, none, 0, 0⟩ [] 7 true (by decide)

/-- Counterexample to C2 as stated: an update request for a facility id that
does not exist, issued by an NGO whose status is PENDING, is rejected with
the 403 forbidden-state error of the status gate, not with a not-found
error. -/
theorem C2_counterexample :
    (manageFacility ⟨1, "PENDING"⟩ FACILITY_OPERATIONS.UPDATE 5
        ⟨none, none, none, none, 0, 0⟩ [] 9 true).response
      = .error (.api ⟨403, "NGO must be active to manage facilities"⟩)
    ∧ responseStatus (manageFacility ⟨1, "PENDING"⟩ FACILITY_OPERATIONS.UPDATE 5
        ⟨none, none, none, none, 0, 0⟩ [] 9 true).response ≠ some 404 :=
  ⟨rfl, by decide⟩

/-- C2 amended: for an update, delete, suspend or activate request by an
ACTIVE NGO, if no stored facility has the given id and the calling NGO as
owner, the handler returns the 404 not-found error and the facility
collection is unchanged — the foreign record is neither returned nor
mutated. -/
theorem C2_missing_or_foreign_facility_not_found (ngo : NgoCtx) (action : String)
    (facilityId : Nat) (body : FacilityBody) (db : List Facility) (freshId : Nat)
    (notifyOk : Bool)
    (hact : ngo.status = NGO_STATUS.ACTIVE)
    (hop : action = FACILITY_OPERATIONS.UPDATE ∨ action = FACILITY_OPERATIONS.DELETE
      ∨ action = FACILITY_OPERATIONS.SUSPEND ∨ action = FACILITY_OPERATIONS.ACTIVATE)
    (hown : ∀ f ∈ db, ¬(f.id = facilityId ∧ f.ngoId = ngo.id)) :
    manageFacility ngo action facilityId body db freshId notifyOk
      = ⟨.error (.api ⟨404, "Facility not found"⟩), db, 0⟩ := by
  have hfind : (db.find? fun f => f.id == facilityId && f.ngoId == ngo.id) = none := by
    rw [List.find?_eq_none]
    intro f hf
    simp only [Bool.and_eq_true, beq_iff_eq]
    exact fun hc => hown f hf hc
  rcases hop with h | h | h | h <;> subst h <;>
    simp [manageFacility, hact, hfind, FACILITY_OPERATIONS.UPDATE,
      FACILITY_OPERATIONS.DELETE, FACILITY_OPERATIONS.SUSPEND,
      FACILITY_OPERATIONS.ACTIVATE, FACILITY_OPERATIONS.CREATE,
      FACILITY_OPERATIONS.LIST]

/-- Witness for the amended C2: an ACTIVE NGO (id 1) updating facility 5,
which is owned by NGO 2, receives 404 and the stored record is untouched. -/
theorem C2_missing_or_foreign_facility_not_found_witness :
    manageFacility ⟨1, "ACTIVE"⟩ FACILITY_OPERATIONS.UPDATE 5
        ⟨none, none, some "ACTIVE", none, 0, 0⟩
        [⟨5, 2, none, "CENTER", "INACTIVE", ⟨"Point", (0, 0)⟩⟩] 9 true
      = ⟨.error (.api ⟨404, "Facility not found"⟩),
         [⟨5, 2, none, "CENTER", "INACTIVE", ⟨"Point", (0, 0)⟩⟩], 0⟩ :=
  C2_missing_or_foreign_facility_not_found ⟨1, "ACTIVE"⟩ FACILITY_OPERATIONS.UPDATE 5
    ⟨none, none, some "ACTIVE", none, 0, 0⟩
    [⟨5, 2, none, "CENTER", "INACTIVE", ⟨"Point", (0, 0)⟩⟩] 9 true rfl
    (Or.inl rfl) (by decide)

/-- Counterexample to C7 as stated: a request with the unrecognized
operation name "archive" by an ACTIVE NGO, whose facility id matches no
owned facility, is rejected with the 404 not-found error — the ownership
lookup runs before the operation-name check — not with a 400 validation
error. -/
theorem C7_counterexample :
    (manageFacility ⟨1, "ACTIVE"⟩ "archive" 5
        ⟨none, none, none, none, 0, 0⟩ [] 9 true).response
      = .error (.api ⟨404, "Facility not found"⟩)
    ∧ responseStatus (manageFacility ⟨1, "ACTIVE"⟩ "archive" 5
        ⟨none, none, none, none, 0, 0⟩ [] 9 true).response ≠ some 400 :=
  ⟨rfl, by decide⟩

/-- C7 amended: a request whose operation name is none of create, update,
delete, suspend, activate or LIST is rejected with the 400 "Invalid
operation" error provided the acting NGO is ACTIVE and the given facility id
belongs to a facility of the calling NGO; with an inactive NGO the status
gate answers 403 first, and with no matching owned facility the lookup
answers 404 first. -/
theorem C7_unknown_action_invalid_operation (ngo : NgoCtx) (action : String)
    (facilityId : Nat) (body : FacilityBody) (db : List Facility) (freshId : Nat)
    (notifyOk : Bool) (f : Facility)
    (hact : ngo.status = NGO_STATUS.ACTIVE)
    (h1 : action ≠ FACILITY_OPERATIONS.CREATE)
    (h2 : action ≠ FACILITY_OPERATIONS.LIST)
    (h3 : action ≠ FACILITY_OPERATIONS.UPDATE)
    (h4 : action ≠ FACILITY_OPERATIONS.DELETE)
    (h5 : action ≠ FACILITY_OPERATIONS.SUSPEND)
    (h6 : action ≠ FACILITY_OPERATIONS.ACTIVATE)
    (hfind : (db.find? fun g => g.id == facilityId && g.ngoId == ngo.id) = some f) :
    manageFacility ngo action facilityId body db freshId notifyOk
      = ⟨.error (.api ⟨400, "Invalid operation"⟩), db, 0⟩ := by
  simp [manageFacility, hact, h1, h2, h3, h4, h5, h6, hfind]

/-- Witness for the amended C7: operation "archive" on an owned facility by
an ACTIVE NGO yields the 400 "Invalid operation" error. -/
theorem C7_unknown_action_invalid_operation_witness :
    manageFacility ⟨1, "ACTIVE"⟩ "archive" 5 ⟨none, none, none, none, 0, 0⟩
        [⟨5, 1, none, "CENTER", "INACTIVE", ⟨"Point", (0, 0)⟩⟩] 9 true
      = ⟨.error (.api ⟨400, "Invalid operation"⟩),
         [⟨5, 1, none, "CENTER", "INACTIVE", ⟨"Point", (0, 0)⟩⟩], 0⟩ :=
  C7_unknown_action_invalid_operation ⟨1, "ACTIVE"⟩ "archive" 5
    ⟨none, none, none, none, 0, 0⟩
    [⟨5, 1, none, "CENTER", "INACTIVE", ⟨"Point", (0, 0)⟩⟩] 9 true
    ⟨5, 1, none, "CENTER", "INACTIVE", ⟨"Point", (0, 0)⟩⟩ rfl
    (by decide) (by decide) (by decide) (by decide) (by decide) (by decide) rfl

/-- Characterization of the create branch for an ACTIVE NGO: the stored
collection always gains exactly the derived document; a CAMP creation
performs one bulk dispatch when the notification side effect resolves and
propagates the failure otherwise; a CENTER creation performs none. -/
theorem manageFacility_create_result (ngo : NgoCtx) (facilityId : Nat)
    (body : FacilityBody) (db : List Facility) (freshId : Nat) (notifyOk : Bool)
    (hact : ngo.status = NGO_STATUS.ACTIVE) :
    manageFacility ngo FACILITY_OPERATIONS.CREATE facilityId body db freshId notifyOk
      = if (createdFacility ngo body freshId).facilityType = FACILITY_TYPE.CAMP then
          (if notifyOk then
            ⟨.ok ⟨201, .one (createdFacility ngo body freshId),
                "Facility created successfully"⟩,
              db ++ [createdFacility ngo body freshId], 1⟩
          else
            ⟨.error (.dispatchFailure "notification dispatch failed"),
              db ++ [createdFacility ngo body freshId], 0⟩)
        else
          ⟨.ok ⟨201, .one (createdFacility ngo body freshId),
              "Facility created successfully"⟩,
            db ++ [createdFacility ngo body freshId], 0⟩ := by
  by_cases h : (createdFacility ngo body freshId).facilityType = FACILITY_TYPE.CAMP <;>
    cases notifyOk <;>
      simp [manageFacility, hact, notifyNearbyDonors, h]

/-- C4: whenever a facility-create request completes with its success
response, the number of bulk-notification dispatches performed is exactly
one if the created facility's type is CAMP and exactly zero if it is
CENTER. -/
theorem C4_camp_creation_dispatch_count (ngo : NgoCtx) (facilityId : Nat)
    (body : FacilityBody) (db : List Facility) (freshId : Nat) (notifyOk : Bool)
    (resp : ApiResponse FacilityResData) (f : Facility)
    (hok : (manageFacility ngo FACILITY_OPERATIONS.CREATE facilityId body db freshId
        notifyOk).response = .ok resp)
    (hdata : resp.data = .one f) :
    (manageFacility ngo FACILITY_OPERATIONS.CREATE facilityId body db freshId
        notifyOk).bulkDispatches
      = if f.facilityType = FACILITY_TYPE.CAMP then 1 else 0 := by
  by_cases hs : ngo.status = NGO_STATUS.ACTIVE
  · rw [manageFacility_create_result ngo facilityId body db freshId notifyOk hs] at hok ⊢
    by_cases hc : (createdFacility ngo body freshId).facilityType = FACILITY_TYPE.CAMP
    · cases notifyOk
      · simp [hc] at hok
      · simp only [hc, if_true, if_pos] at hok ⊢
        cases hok
        simp only [hc] at hdata
        cases hdata
        simp [hc]
    · simp only [hc, if_neg, if_false] at hok ⊢
      cases hok
      simp only at hdata
      cases hdata
      simp [hc]
  · simp [manageFacility, hs] at hok

/-- Witness for C4: a successful CAMP creation performs one bulk dispatch. -/
theorem C4_camp_creation_dispatch_count_witness :
    (manageFacility ⟨1, "ACTIVE"⟩ FACILITY_OPERATIONS.CREATE 0
        ⟨some "CAMP", none, none, some "Camp A", 3, 4⟩ [] 7 true).bulkDispatches
      = if ("CAMP" : String) = FACILITY_TYPE.CAMP then 1 else 0 := by
  have h := C4_camp_creation_dispatch_count ⟨1, "ACTIVE"⟩ 0
    ⟨some "CAMP", none, none, some "Camp A", 3, 4⟩ [] 7 true
    ⟨201, .one ⟨7, 1, some "Camp A", "CAMP", "PLANNED", ⟨"Point", (3, 4)⟩⟩,
      "Facility created successfully"⟩
    ⟨7, 1, some "Camp A", "CAMP", "PLANNED", ⟨"Point", (3, 4)⟩⟩ rfl rfl
  simpa using h

/-- Counterexample to C6 as stated: a CAMP creation whose donor-notification
dispatch fails does keep the stored facility (no rollback), but the handler
does not complete with its success response — the dispatch failure escapes
as the request's outcome. -/
theorem C6_counterexample :
    (manageFacility ⟨1, "ACTIVE"⟩ FACILITY_OPERATIONS.CREATE 0
        ⟨some "CAMP", none, none, some "Camp B", 2, 3⟩ [] 7 false).response
      = .error (.dispatchFailure "notification dispatch failed")
    ∧ (manageFacility ⟨1, "ACTIVE"⟩ FACILITY_OPERATIONS.CREATE 0
        ⟨some "CAMP", none, none, some "Camp B", 2, 3⟩ [] 7 false).facilities
      = [⟨7, 1, some "Camp B", "CAMP", "PLANNED", ⟨"Point", (2, 3)⟩⟩]
    ∧ isSuccess (manageFacility ⟨1, "ACTIVE"⟩ FACILITY_OPERATIONS.CREATE 0
        ⟨some "CAMP", none, none, some "Camp B", 2, 3⟩ [] 7 false).response = false :=
  ⟨rfl, rfl, rfl⟩

/-- C6 amended: when the donor-notification dispatch fails during a CAMP
creation by an ACTIVE NGO, the facility creation is not rolled back — the
derived record remains in the stored collection — but the handler does not
answer with its success response: the awaited dispatch failure propagates
and becomes the request's outcome. -/
theorem C6_dispatch_failure_keeps_record (ngo : NgoCtx) (facilityId : Nat)
    (body : FacilityBody) (db : List Facility) (freshId : Nat)
    (hact : ngo.status = NGO_STATUS.ACTIVE) (hcamp : body.type = some "CAMP") :
    manageFacility ngo FACILITY_OPERATIONS.CREATE facilityId body db freshId false
      = ⟨.error (.dispatchFailure "notification dispatch failed"),
         db ++ [createdFacility ngo body freshId], 0⟩ := by
  simp [manageFacility, createdFacility, hact, hcamp, notifyNearbyDonors]

/-- Witness for the amended C6: concrete CAMP creation with a failing
dispatch keeps the record and surfaces the dispatch failure. -/
theorem C6_dispatch_failure_keeps_record_witness :
    manageFacility ⟨1, "ACTIVE"⟩ FACILITY_OPERATIONS.CREATE 0
        ⟨some "CAMP", none, none, some "Camp B", 2, 3⟩ [] 7 false
      = ⟨.error (.dispatchFailure "notification dispatch failed"),
         [] ++ [createdFacility ⟨1, "ACTIVE"⟩ ⟨some "CAMP", none, none, some "Camp B", 2, 3⟩ 7], 0⟩ :=
  C6_dispatch_failure_keeps_record ⟨1, "ACTIVE"⟩ 0
    ⟨some "CAMP", none, none, some "Camp B", 2, 3⟩ [] 7 rfl rfl

/-- Counterexample to C5 as stated: a registration request whose email
matches a stored account but whose password is shorter than 8 characters is
rejected by the field validation with 400, not with a 409 conflict — the
duplicate check runs only after all field validations pass.  (No second
record is created either way.) -/
theorem C5_counterexample :
    (registerNGO ⟨some "Helping Hands", some "a@b.org", some "short",
        some ⟨some "X", some "123"⟩, some "R-2"⟩
        [⟨0, "First", "a@b.org", "longenough1", ⟨some "Y", some "456"⟩,
          "R-1", "PENDING", none, none⟩] 9).response
      = .error (.api ⟨400, "Password must be at least 8 characters"⟩)
    ∧ responseStatus (registerNGO ⟨some "Helping Hands", some "a@b.org", some "short",
        some ⟨some "X", some "123"⟩, some "R-2"⟩
        [⟨0, "First", "a@b.org", "longenough1", ⟨some "Y", some "456"⟩,
          "R-1", "PENDING", none, none⟩] 9).response ≠ some 409 :=
  ⟨rfl, by decide⟩

/-- C5 amended: a registration request that passes the field validations
(name, email, password of at least 8 characters, contact person name and
phone, registration number) and whose email or registration number matches
an already-stored NGO account yields a 409 conflict error, and no second
account record is created. -/
theorem C5_duplicate_registration_conflict (body : RegisterBody)
    (db : List NgoRecord) (freshId : Nat)
    (h1 : trimFalsy body.name = false)
    (h2 : trimFalsy body.email = false)
    (h3 : ¬(trimFalsy body.password ∨ (body.password.getD "").length < 8))
    (h4 : ¬(strFalsy (body.contactPerson.bind fun c => c.name)
        ∨ strFalsy (body.contactPerson.bind fun c => c.phone)))
    (h5 : trimFalsy body.regNumber = false)
    (dup : NgoRecord) (hmem : dup ∈ db)
    (hdup : dup.email = body.email.getD "" ∨ dup.regNumber = body.regNumber.getD "") :
    responseStatus (registerNGO body db freshId).response = some 409
    ∧ (registerNGO body db freshId).ngos = db := by
  have hsome : (db.find? fun n =>
      n.email == body.email.getD "" || n.regNumber == body.regNumber.getD "").isSome := by
    rw [List.find?_isSome]
    exact ⟨dup, hmem, by simpa using hdup⟩
  obtain ⟨ex, hex⟩ := Option.isSome_iff_exists.mp hsome
  simp [registerNGO, h1, h2, h3, h4, h5, hex, responseStatus]

/-- Witness for the amended C5: a fully valid registration whose email
matches the stored account yields 409 and leaves the store unchanged. -/
theorem C5_duplicate_registration_conflict_witness :
    responseStatus (registerNGO ⟨some "Helping Hands", some "a@b.org",
        some "longenough1", some ⟨some "X", some "123"⟩, some "R-2"⟩
        [⟨0, "First", "a@b.org", "otherpass99", ⟨some "Y", some "456"⟩,
          "R-1", "PENDING", none, none⟩] 9).response = some 409
    ∧ (registerNGO ⟨some "Helping Hands", some "a@b.org",
        some "longenough1", some ⟨some "X", some "123"⟩, some "R-2"⟩
        [⟨0, "First", "a@b.org", "otherpass99", ⟨some "Y", some "456"⟩,
          "R-1", "PENDING", none, none⟩] 9).ngos
      = [⟨0, "First", "a@b.org", "otherpass99", ⟨some "Y", some "456"⟩,
          "R-1", "PENDING", none, none⟩] :=
  C5_duplicate_registration_conflict
    ⟨some "Helping Hands", some "a@b.org", some "longenough1",
      some ⟨some "X", some "123"⟩, some "R-2"⟩
    [⟨0, "First", "a@b.org", "otherpass99", ⟨some "Y", some "456"⟩,
      "R-1", "PENDING", none, none⟩] 9
    (by decide) (by decide) (by decide) (by decide) (by decide)
    ⟨0, "First", "a@b.org", "otherpass99", ⟨some "Y", some "456"⟩,
      "R-1", "PENDING", none, none⟩ (by decide) (Or.inl rfl)

/-- C8: a resend-verification-OTP request for an NGO whose verification
status is not PENDING (for example, already ACTIVE) is rejected with a 400
client error; the NGO collection is unchanged (no one-time code is
generated or persisted) and no notification is dispatched. -/
theorem C8_resend_otp_not_pending_rejected (ngoId : Nat) (db : List NgoRecord)
    (ngo : NgoRecord)
    (hfind : (db.find? fun n => n.id == ngoId) = some ngo)
    (hst : ngo.verificationStatus ≠ NGO_STATUS.PENDING) :
    resendVerificationOtp ngoId db
      = ⟨.error (.api ⟨400, "Verification already completed or not pending"⟩), db, 0⟩ := by
  simp [resendVerificationOtp, hfind, hst]

/-- Witness for C8: an ACTIVE NGO asking for a new OTP is rejected with 400
and nothing is persisted or dispatched. -/
theorem C8_resend_otp_not_pending_rejected_witness :
    resendVerificationOtp 1
        [⟨1, "N", "a@b.org", "pw12345678", ⟨some "X", some "123"⟩,
          "R-1", "ACTIVE", none, none⟩]
      = ⟨.error (.api ⟨400, "Verification already completed or not pending"⟩),
         [⟨1, "N", "a@b.org", "pw12345678", ⟨some "X", some "123"⟩,
           "R-1", "ACTIVE", none, none⟩], 0⟩ :=
  C8_resend_otp_not_pending_rejected 1
    [⟨1, "N", "a@b.org", "pw12345678", ⟨some "X", some "123"⟩,
      "R-1", "ACTIVE", none, none⟩]
    ⟨1, "N", "a@b.org", "pw12345678", ⟨some "X", some "123"⟩,
      "R-1", "ACTIVE", none, none⟩ rfl (by decide)

/-- C10: a resend-verification-OTP request for an NGO whose verification
status is PENDING raises the `ReferenceError` of the unbound `generateOtp`
identifier before any OTP is persisted or any notification dispatched: the
collection is unchanged, zero notifications are sent, and the outcome is the
error, so the operation never completes successfully. -/
theorem C10_resend_otp_reference_error (ngoId : Nat) (db : List NgoRecord)
    (ngo : NgoRecord)
    (hfind : (db.find? fun n => n.id == ngoId) = some ngo)
    (hst : ngo.verificationStatus = NGO_STATUS.PENDING) :
    resendVerificationOtp ngoId db
      = ⟨.error (.referenceError "generateOtp"), db, 0⟩ := by
  simp [resendVerificationOtp, hfind, hst]

/-- Witness for C10: a PENDING NGO asking for a new OTP hits the
`generateOtp` reference error; nothing is persisted or dispatched. -/
theorem C10_resend_otp_reference_error_witness :
    resendVerificationOtp 1
        [⟨1, "N", "a@b.org", "pw12345678", ⟨some "X", some "123"⟩,
          "R-1", "PENDING", none, none⟩]
      = ⟨.error (.referenceError "generateOtp"),
         [⟨1, "N", "a@b.org", "pw12345678", ⟨some "X", some "123"⟩,
           "R-1", "PENDING", none, none⟩], 0⟩ :=
  C10_resend_otp_reference_error 1
    [⟨1, "N", "a@b.org", "pw12345678", ⟨some "X", some "123"⟩,
      "R-1", "PENDING", none, none⟩]
    ⟨1, "N", "a@b.org", "pw12345678", ⟨some "X", some "123"⟩,
      "R-1", "PENDING", none, none⟩ rfl rfl

/-- Counterexample to C9 as stated: after a successful login the response
data holds the NGO document exactly as loaded at the start of the handler,
so its refresh-token field still carries the pre-login value ("oldtok"),
while the newly persisted document in the store carries the fresh token
("newtok") — the returned document does not include the newly persisted
refresh-token value. -/
theorem C9_counterexample :
    (loginNGO (some "a@b.org") (some "pw12345678")
        [⟨1, "N", "a@b.org", "pw12345678", ⟨some "X", some "123"⟩,
          "R-1", "ACTIVE", some "oldtok", none⟩] "acc" "newtok" 100).response
      = .ok ⟨200, ⟨⟨1, "N", "a@b.org", "pw12345678", ⟨some "X", some "123"⟩,
          "R-1", "ACTIVE", some "oldtok", none⟩, "acc", "newtok"⟩, "Login successful"⟩
    ∧ (loginNGO (some "a@b.org") (some "pw12345678")
        [⟨1, "N", "a@b.org", "pw12345678", ⟨some "X", some "123"⟩,
          "R-1", "ACTIVE", some "oldtok", none⟩] "acc" "newtok" 100).ngos
      = [⟨1, "N", "a@b.org", "pw12345678", ⟨some "X", some "123"⟩,
          "R-1", "ACTIVE", some "newtok", some 100⟩]
    ∧ (some "oldtok" : Option String) ≠ some "newtok" :=
  ⟨rfl, rfl, by decide⟩

/-- C9 amended: a successful login responds with the entire NGO document
exactly as loaded from the store at the start of the handler — unredacted,
including the stored password field and the refresh-token value stored
before this login — together with the freshly generated token pair at the
top level of the response data; the new refresh token and the login time
are persisted to the store on a refetched document, not reflected in the
returned one.  (The registration response, by contrast, is the redacted
id/name/email/status summary by construction of `RegisterData`.) -/
theorem C9_login_response_unredacted (email password : Option String)
    (db : List NgoRecord) (accessToken refreshToken : String) (now : Nat)
    (ngo : NgoRecord)
    (he : strFalsy email = false) (hp : strFalsy password = false)
    (hfind : (db.find? fun n => n.email == email.getD "") = some ngo)
    (hcmp : comparePassword ngo (password.getD "") = true) :
    (loginNGO email password db accessToken refreshToken now).response
      = .ok ⟨200, ⟨ngo, accessToken, refreshToken⟩, "Login successful"⟩
    ∧ (loginNGO email password db accessToken refreshToken now).ngos
      = db.map (fun n => if n.id == ngo.id then
          { n with refreshToken := some refreshToken, lastLogin := some now } else n) := by
  simp [loginNGO, he, hp, hfind, hcmp, generateTokens]

/-- Witness for the amended C9: the concrete login of `C9_counterexample`
via the amended theorem. -/
theorem C9_login_response_unredacted_witness :
    (loginNGO (some "c@d.org") (some "pw87654321")
        [⟨2, "M", "c@d.org", "pw87654321", ⟨some "Z", some "789"⟩,
          "R-9", "ACTIVE", some "prevtok", some 50⟩] "acc2" "fresh" 200).response
      = .ok ⟨200, ⟨⟨2, "M", "c@d.org", "pw87654321", ⟨some "Z", some "789"⟩,
          "R-9", "ACTIVE", some "prevtok", some 50⟩, "acc2", "fresh"⟩, "Login successful"⟩
    ∧ (loginNGO (some "c@d.org") (some "pw87654321")
        [⟨2, "M", "c@d.org", "pw87654321", ⟨some "Z", some "789"⟩,
          "R-9", "ACTIVE", some "prevtok", some 50⟩] "acc2" "fresh" 200).ngos
      = [⟨2, "M", "c@d.org", "pw87654321", ⟨some "Z", some "789"⟩,
          "R-9", "ACTIVE", some "prevtok", some 50⟩].map (fun n => if n.id == 2 then
            { n with refreshToken := some "fresh", lastLogin := some 200 } else n) := by
  have h := C9_login_response_unredacted (some "c@d.org") (some "pw87654321")
    [⟨2, "M", "c@d.org", "pw87654321", ⟨some "Z", some "789"⟩,
      "R-9", "ACTIVE", some "prevtok", some 50⟩] "acc2" "fresh" 200
    ⟨2, "M", "c@d.org", "pw87654321", ⟨some "Z", some "789"⟩,
      "R-9", "ACTIVE", some "prevtok", some 50⟩ rfl rfl rfl rfl
  exact h
